import Mathlib

/-!
Verification of the retrieval-and-answer pipeline of the pdf-langchain-chat
repository: a shallow embedding in Lean 4 of the query router, answer
assembler (`src/core/rag_engine.py`), embedding/index lifecycle manager
(`src/core/embedding_manager.py`) and chunker configuration
(`src/core/document_processor.py`, `config/settings.py`), together with
theorems settling the specified behavioural claims.
-/

namespace PdfChat

/-! ## String helpers

Python's `needle in haystack` substring test, modelled on the underlying
character lists. -/

/-- `strContains hay needle` is Python's `needle in hay` substring test. -/
def strContains (hay needle : String) : Bool :=
  decide (needle.data <:+: hay.data)

/-- Python's `str.lower()`, character by character. -/
def lower (s : String) : String :=
  String.mk (s.data.map Char.toLower)

/-- Python's `any(keyword in hay for keyword in needles)`. -/
def containsAny (hay : String) (needles : List String) : Bool :=
  needles.any (fun kw => strContains hay kw)

/-! ## Query router (`rag_engine.py`, `_select_template` / `_extract_file_filter`) -/

/-- The four fixed prompt styles of `RAGEngine.templates`. -/
inductive Style
  | basic
  | financial
  | summary
  | comparison
deriving DecidableEq, Repr

/-- `rag_engine.py` line 41: the financial keyword list. -/
def financial_keywords : List String :=
  ["revenue", "profit", "earnings", "financial", "income", "sales", "growth",
   "percentage", "%"]

/-- `rag_engine.py` line 47: the summary keyword list. -/
def summary_keywords : List String :=
  ["summarize", "summary", "overview", "brief", "main points"]

/-- `rag_engine.py` line 53: the comparison keyword list. -/
def comparison_keywords : List String :=
  ["compare", "versus", "vs", "difference", "similar", "different"]

/-- `RAGEngine._select_template`: lowercase the question, then test the three
keyword lists in order financial, summary, comparison; default to basic. -/
def select_template (question : String) : Style :=
  let question_lower := lower question
  if containsAny question_lower financial_keywords then .financial
  else if containsAny question_lower summary_keywords then .summary
  else if containsAny question_lower comparison_keywords then .comparison
  else .basic

/-- `rag_engine.py` lines 66-71: the ordered `file_indicators` table
(Python dicts iterate in insertion order). -/
def file_indicators : List (String × List String) :=
  [("resume", ["resume", "cv", "my resume", "my cv"]),
   ("nike", ["nike", "10k", "10-k", "annual report"]),
   ("research", ["research", "research report"]),
   ("business plan", ["business plan", "cozad", "plan"])]

/-- `RAGEngine._extract_file_filter`: first group in `file_indicators` with a
keyword occurring in the lowercased question; `none` when no group matches. -/
def extract_file_filter (question : String) : Option String :=
  let question_lower := lower question
  (file_indicators.find? (fun p => containsAny question_lower p.2)).map (·.1)

/-! ## Prompt templates (`prompt_templates.py`)

Each `PromptTemplate` has input variables `context` and `question`;
`format` substitutes them into the fixed template text, modelled here as
string concatenation around the two holes. -/

/-- `BASIC_QA_TEMPLATE.format(context=..., question=...)`. -/
def fill_basic (context question : String) : String :=
  "\nYou are a helpful AI assistant that answers questions based on the provided context. \nYour task is to provide accurate, factual answers using only the information given in the context.\n\nIMPORTANT RULES:\n1. Only use information from the provided context\n2. If the context doesn\x27t contain enough information to answer the question, say \"I cannot answer this question based on the provided context\"\n3. Be specific and include relevant numbers, dates, and facts when available\n4. Cite the source of information when possible\n5. If the question is ambiguous, ask for clarification\n\nContext: " ++ context ++ "\n\nQuestion: " ++ question ++ "\n\nAnswer:"

/-- `FINANCIAL_TEMPLATE.format(context=..., question=...)`. -/
def fill_financial (context question : String) : String :=
  "\nYou are a financial analyst assistant. Analyze the provided financial context and answer questions with precision.\n\nANALYSIS GUIDELINES:\n1. Always include specific numbers, percentages, and dates\n2. Compare figures when relevant (year-over-year, quarter-over-quarter)\n3. Identify trends and patterns in the data\n4. Use financial terminology appropriately\n5. If asked for calculations, show your reasoning\n6. Highlight any significant changes or anomalies\n\nContext: " ++ context ++ "\n\nQuestion: " ++ question ++ "\n\nAnalysis:"

/-- `SUMMARY_TEMPLATE.format(context=..., question=...)`. -/
def fill_summary (context question : String) : String :=
  "\nYou are a document summarization expert. Create concise, well-structured summaries based on the provided context.\n\nSUMMARIZATION RULES:\n1. Focus on key points and main ideas\n2. Use bullet points for better readability\n3. Include important numbers and dates\n4. Maintain logical flow and structure\n5. Keep summaries concise but comprehensive\n6. Highlight the most relevant information\n\nContext: " ++ context ++ "\n\nQuestion: " ++ question ++ "\n\nSummary:"

/-- `COMPARISON_TEMPLATE.format(context=..., question=...)`. -/
def fill_comparison (context question : String) : String :=
  "\nYou are a comparison analysis expert. When comparing items in the context, provide structured analysis.\n\nCOMPARISON GUIDELINES:\n1. Create clear side-by-side comparisons\n2. Use tables or structured formats when helpful\n3. Identify similarities and differences\n4. Highlight key differentiators\n5. Provide objective analysis\n6. Include relevant metrics and data points\n\nContext: " ++ context ++ "\n\nQuestion: " ++ question ++ "\n\nComparison:"

/-- Dispatch from the selected style to its template, as in
`RAGEngine.templates`. -/
def fill_template : Style → String → String → String
  | .basic => fill_basic
  | .financial => fill_financial
  | .summary => fill_summary
  | .comparison => fill_comparison

/-! ## Data model for retrieved documents -/

/-- A langchain `Document` as the pipeline uses it: `page_content` plus the
`source_file` and `page` metadata entries (absent entries are `none`). -/
structure Doc where
  page_content : String
  source_file : Option String
  page : Option Nat
deriving DecidableEq, Repr

/-- One entry of the `sources` list built at `rag_engine.py` lines 138-144. -/
structure SourceEntry where
  content : String
  source : String
  page : String
deriving DecidableEq, Repr

/-- The result dictionary of `RAGEngine.ask_question`. -/
structure QueryOutcome where
  answer : String
  sources : List SourceEntry
  question : String
  template_used : String
  file_filter : Option String
deriving DecidableEq, Repr

/-- `rag_engine.py` lines 140-144: truncated excerpt plus metadata with
`"Unknown"` defaults. -/
def format_source (d : Doc) : SourceEntry :=
  { content := String.mk (d.page_content.data.take 200) ++ "...",
    source := d.source_file.getD "Unknown",
    page := match d.page with
            | some n => toString n
            | none => "Unknown" }

/-! ## Answer assembler (`RAGEngine.ask_question`) -/

/-- Python truthiness of an optional string: `None` and `""` are falsy. -/
def otruthy : Option String → Bool
  | none => false
  | some s => !s.isEmpty

/-- Lines 85-86: use the caller-supplied filter when truthy, else extract one
from the question. -/
def resolve_filter (question : String) (file_filter : Option String) : Option String :=
  if otruthy file_filter then file_filter else extract_file_filter question

/-- Lines 93-101: the retriever is created with `k=6`, and recreated with
`k=8` when a file filter is set. -/
def retrieval_k (file_filter : Option String) : Nat :=
  if otruthy file_filter then 8 else 6

/-- Lines 124-125: lowercase the `source_file` metadata (default `""`) and
test whether the lowercased filter occurs in it as a substring. -/
def scope_matches (file_filter : String) (d : Doc) : Bool :=
  strContains (lower (d.source_file.getD "")) (lower file_filter)

/-- Lines 122-126: the `for` loop appending each matching document to
`filtered_sources`. -/
def filter_loop (file_filter : String) (source_documents : List Doc) : List Doc :=
  source_documents.foldl
    (fun filtered_sources d =>
      if scope_matches file_filter d then filtered_sources ++ [d]
      else filtered_sources)
    []

/-- Lines 121-135: when a filter is set (truthy), keep the filtered documents
if any matched, else fall back to the full `source_documents`. -/
def apply_file_filter (file_filter : Option String) (source_documents : List Doc) :
    List Doc :=
  if otruthy file_filter then
    let filtered_sources := filter_loop (file_filter.getD "") source_documents
    if !filtered_sources.isEmpty then filtered_sources else source_documents
  else source_documents

/-- The `"stuff"` chain concatenates the retrieved documents, separated by a
blank line, into the `context` variable of the prompt. -/
def stuff_context (source_documents : List Doc) : String :=
  String.intercalate ("\n\n") (source_documents.map (·.page_content))

/-- External collaborators of `ask_question`: the vector store retriever
(parameterised by `k`) and the generative provider, each fallible. -/
structure RagEnv where
  retrieve : Nat → Except String (List Doc)
  generate : String → Except String String

/-- The body of the `try` block of `ask_question` (lines 93-152), with the
file filter already resolved: retrieve, build the prompt from the full
retrieval, generate, then filter only the reported sources. -/
def ask_result (env : RagEnv) (question : String) (file_filter : Option String) :
    Except String QueryOutcome :=
  match env.retrieve (retrieval_k file_filter) with
  | .error e => .error e
  | .ok source_documents =>
    match env.generate
        (fill_template (select_template question) (stuff_context source_documents)
          question) with
    | .error e => .error e
    | .ok answer =>
      .ok { answer := answer,
            sources := (apply_file_filter file_filter source_documents).map format_source,
            question := question,
            template_used := "PromptTemplate",
            file_filter := file_filter }

/-- `RAGEngine.ask_question` (lines 79-161): never raises; the `except`
branch (lines 154-161) converts any failure into a degraded outcome. -/
def ask_question (env : RagEnv) (question : String)
    (file_filter : Option String := none) : QueryOutcome :=
  let ff := resolve_filter question file_filter
  match ask_result env question ff with
  | .ok outcome => outcome
  | .error e =>
    { answer := "Error processing question: " ++ e,
      sources := [],
      question := question,
      template_used := "error",
      file_filter := ff }

/-! ## Index lifecycle manager (`embedding_manager.py`) -/

/-- A handle on a Chroma vector store, identified by its collection name. -/
structure Vectorstore where
  collection_name : String
deriving DecidableEq, Repr

/-- One persisted collection in the Chroma directory. -/
structure ChromaCollection where
  name : String
  count : Nat
deriving DecidableEq, Repr

/-- The on-disk contents of the Chroma directory: its collections. -/
abbrev DiskState := List ChromaCollection

/-- Observable operations of `create_embeddings` on external state. -/
inductive BuildEv
  | clearDb
  | buildAttempt (collection_name : String)
deriving DecidableEq, Repr

/-- `embedding_manager.py` lines 105 and 129: the generation name derived
from the current integer timestamp. -/
def gen_name (t : Nat) : String :=
  "documents_" ++ toString t

/-- External outcomes of the two possible build attempts of
`create_embeddings`: each attempt covers client creation plus
`Chroma.from_documents`, and `time1`/`time2` are the integer timestamps read
at each attempt. -/
structure BuildEnv where
  attempt1 : Except String Unit
  attempt2 : Except String Unit
  time1 : Nat
  time2 : Nat

/-- Result of a `create_embeddings` call: the returned value or propagated
error, the final disk state, and the trace of destructive/build operations. -/
structure BuildResult where
  result : Except String (Option Vectorstore)
  disk : DiskState
  trace : List BuildEv
deriving Repr

/-- `EmbeddingManager.create_embeddings` (lines 85-143): empty input returns
`None` immediately; otherwise clear the store and build under
`documents_{time1}`; on failure, clear again and retry once under
`documents_{time2}`; a second failure re-raises the underlying error. -/
def create_embeddings (env : BuildEnv) (documents : List Doc) (disk : DiskState) :
    BuildResult :=
  if documents.isEmpty then
    { result := .ok none, disk := disk, trace := [] }
  else
    let name1 := gen_name env.time1
    match env.attempt1 with
    | .ok _ =>
      { result := .ok (some { collection_name := name1 }),
        disk := [{ name := name1, count := documents.length }],
        trace := [.clearDb, .buildAttempt name1] }
    | .error _ =>
      let name2 := gen_name env.time2
      match env.attempt2 with
      | .ok _ =>
        { result := .ok (some { collection_name := name2 }),
          disk := [{ name := name2, count := documents.length }],
          trace := [.clearDb, .buildAttempt name1, .clearDb, .buildAttempt name2] }
      | .error e2 =>
        { result := .error e2,
          disk := [],
          trace := [.clearDb, .buildAttempt name1, .clearDb, .buildAttempt name2] }

/-- External outcomes seen by `load_existing_vectorstore`: enumerating the
collections (client creation plus `list_collections`) and querying one
collection's item count (`get_collection(...).count()`). -/
structure LoadEnv where
  collections : Except String (List String)
  countOf : String → Except String Nat

/-- `EmbeddingManager.load_existing_vectorstore` (lines 145-177): `none` when
enumeration fails or yields no collections; otherwise open the first
collection, query its count, and return the handle — any exception along the
way yields `none`; the count value itself is only printed, never branched on. -/
def load_existing_vectorstore (env : LoadEnv) : Option Vectorstore :=
  match env.collections with
  | .error _ => none
  | .ok [] => none
  | .ok (collection_name :: _) =>
    match env.countOf collection_name with
    | .error _ => none
    | .ok _count => some { collection_name := collection_name }

/-! ## Chunker configuration (`config/settings.py`, `document_processor.py`) -/

/-- `settings.py` line 13. -/
def CHUNK_SIZE : Nat := 1000

/-- `settings.py` line 14. -/
def CHUNK_OVERLAP : Nat := 200

/-- The arguments `DocumentProcessor.__init__` passes to
`RecursiveCharacterTextSplitter`. -/
structure SplitterConfig where
  chunk_size : Nat
  chunk_overlap : Nat
  add_start_index : Bool
deriving DecidableEq, Repr

/-- `document_processor.py` lines 17-21. -/
def document_processor_splitter : SplitterConfig :=
  { chunk_size := CHUNK_SIZE,
    chunk_overlap := CHUNK_OVERLAP,
    add_start_index := true }

/-- A produced chunk: its text (as characters) and recorded start offset. -/
structure TextChunk where
  text : List Char
  start_index : Nat
deriving DecidableEq, Repr

/-- Modelled from the spec: the splitting itself is performed by the external
`RecursiveCharacterTextSplitter` library, which is not part of this
repository's sources; the spec describes its effect as fixed-size overlapping
windows — consecutive chunks start `CHUNK_SIZE - CHUNK_OVERLAP` apart, so the
tail of each chunk reappears at the head of the next. `slide_starts n s`
enumerates the window start offsets from `s` over a text of length `n`. -/
def slide_starts_fuel : Nat → Nat → Nat → List Nat
  | 0, _, s => [s]
  | fuel + 1, n, s =>
    if s + CHUNK_SIZE < n then
      s :: slide_starts_fuel fuel n (s + (CHUNK_SIZE - CHUNK_OVERLAP))
    else
      [s]

/-- The window start offsets for a text of length `n` (the fuel `n` is ample:
each step advances the start by `CHUNK_SIZE - CHUNK_OVERLAP = 800 ≥ 1`). -/
def slide_starts (n s : Nat) : List Nat :=
  slide_starts_fuel n n s

/-- Modelled from the spec: split a text into overlapping chunks of at most
`CHUNK_SIZE` characters, each recording its start offset (the library's
`add_start_index=True`). -/
def split_text_spec (text : List Char) : List TextChunk :=
  if text.isEmpty then []
  else
    (slide_starts text.length 0).map
      (fun s => { text := (text.drop s).take CHUNK_SIZE, start_index := s })

/-! ## Spec-side routing definitions (§4.3 of the specification)

These two definitions follow the specification's words — an ordered rule
table evaluated first-match-wins — for comparison against the source-derived
`select_template` and `extract_file_filter`. -/

/-- The spec's style rule table: keyword sets checked in priority order
financial, summary, comparison. -/
def spec_style_rules : List (Style × List String) :=
  [(.financial,
    ["revenue", "profit", "earnings", "financial", "income", "sales", "growth",
     "percentage", "%"]),
   (.summary, ["summarize", "summary", "overview", "brief", "main points"]),
   (.comparison, ["compare", "versus", "vs", "difference", "similar", "different"])]

/-- The spec's style routing: first rule whose keyword set matches the
lowercased question; `basic` when none matches. -/
def route_style_spec (question : String) : Style :=
  match spec_style_rules.find? (fun r => containsAny (lower question) r.2) with
  | some r => r.1
  | none => .basic

/-- The spec's ordered scope groups: resume, nike, research, business plan. -/
def spec_scope_groups : List (String × List String) :=
  [("resume", ["resume", "cv", "my resume", "my cv"]),
   ("nike", ["nike", "10k", "10-k", "annual report"]),
   ("research", ["research", "research report"]),
   ("business plan", ["business plan", "cozad", "plan"])]

/-- The spec's scope extraction: first group with a keyword occurring in the
lowercased question; `none` when no group matches. -/
def route_scope_spec (question : String) : Option String :=
  (spec_scope_groups.find? (fun g => containsAny (lower question) g.2)).map (·.1)

/-! ## Theorems -/

/-- Claim C7: style selection is a case-insensitive substring match against
the four fixed keyword sets checked in priority order financial, summary,
comparison, with first match winning and basic as the default; in particular
the Nike-revenue question routes to financial and the resume-summary question
routes to summary. -/
theorem style_selection_matches_spec :
    (∀ q, select_template q = route_style_spec q)
    ∧ select_template ("What is Nike\x27s revenue in 2023?") = Style.financial
    ∧ select_template ("Summarize my experience from my resume") = Style.summary := by
  refine ⟨fun q => ?_, by decide, by decide⟩
  simp only [select_template, route_style_spec, spec_style_rules, List.find?,
    financial_keywords, summary_keywords, comparison_keywords]
  by_cases h1 : containsAny (lower q)
      ["revenue", "profit", "earnings", "financial", "income", "sales", "growth",
       "percentage", "%"] = true <;>
    by_cases h2 : containsAny (lower q)
        ["summarize", "summary", "overview", "brief", "main points"] = true <;>
      by_cases h3 : containsAny (lower q)
          ["compare", "versus", "vs", "difference", "similar", "different"] = true <;>
        simp [h1, h2, h3]

/-- Claim C8: scope extraction is a case-insensitive substring match against
the ordered scope groups resume, nike, research, business plan, first match
winning, and returns none when no group keyword occurs in the question. -/
theorem scope_extraction_matches_spec :
    (∀ q, extract_file_filter q = route_scope_spec q)
    ∧ (∀ q, (∀ g ∈ file_indicators, ∀ kw ∈ g.2, strContains (lower q) kw = false) →
        extract_file_filter q = none) := by
  constructor
  · intro q
    rfl
  · intro q h
    simp only [extract_file_filter, Option.map_eq_none', List.find?_eq_none]
    intro g hg hc
    simp only [containsAny, List.any_eq_true] at hc
    rcases hc with ⟨kw, hkw, hkc⟩
    rw [h g hg kw hkw] at hkc
    cases hkc

/-- Witness for C8 at a concrete keyword-free question. -/
theorem scope_extraction_matches_spec_witness :
    extract_file_filter ("hello there") = none :=
  scope_extraction_matches_spec.2 ("hello there") (by decide)

/-! ### Concrete documents and environments used by counterexamples and
witnesses -/

/-- A retrieved chunk originating from the resume document. -/
def d1 : Doc := { page_content := "ALPHA", source_file := some ("resume.pdf"), page := some 1 }

/-- A retrieved chunk originating from an unrelated document. -/
def d2 : Doc := { page_content := "BETA", source_file := some ("notes.pdf"), page := some 2 }

/-- A question whose extracted scope is `resume` and whose style is basic. -/
def qC2 : String := "what about my resume"

/-- An environment whose retriever returns `[d1, d2]` and whose generative
provider echoes the prompt it receives, making the filled template visible as
the answer. -/
def envC2 : RagEnv :=
  { retrieve := fun _ => .ok [d1, d2], generate := fun p => .ok p }

/-- An environment whose retriever fails. -/
def envFail : RagEnv :=
  { retrieve := fun _ => .error ("boom"), generate := fun p => .ok p }

set_option maxRecDepth 100000 in
/-- Claim C2 counterexample: for the scoped question `qC2` the filter matches
exactly `[d1]`, yet the prompt handed to the generative provider (echoed back
as the answer) is the template filled with the context of the full retrieval
`[d1, d2]`, not with the context of the filtered chunks `[d1]`. -/
theorem context_not_filtered_cex :
    (ask_question envC2 qC2 none).answer
        = fill_template Style.basic (stuff_context [d1, d2]) qC2
    ∧ apply_file_filter (extract_file_filter qC2) [d1, d2] = [d1]
    ∧ (ask_question envC2 qC2 none).answer
        ≠ fill_template Style.basic (stuff_context [d1]) qC2 := by
  refine ⟨by decide, by decide, by decide⟩

/-- Claim C2 amended: the context substituted into the prompt handed to the
generative provider is built from the full unfiltered retrieval set; the
scope filter only affects the reported sources. Shown against an environment
whose provider echoes its prompt. -/
theorem context_uses_full_retrieval (docs : List Doc) (q : String)
    (ffArg : Option String) :
    (ask_question { retrieve := fun _ => .ok docs, generate := fun p => .ok p }
          q ffArg).answer
        = fill_template (select_template q) (stuff_context docs) q
    ∧ (ask_question { retrieve := fun _ => .ok docs, generate := fun p => .ok p }
          q ffArg).sources
        = (apply_file_filter (resolve_filter q ffArg) docs).map format_source :=
  ⟨rfl, rfl⟩

/-- Claim C4: `ask_question` never raises (it is a total function into
`QueryOutcome`); when the try-body fails, the outcome carries the non-empty
error message, empty sources, and the `error` sentinel in the template field. -/
theorem ask_question_failure_degrades (env : RagEnv) (q : String)
    (ffArg : Option String) (e : String)
    (h : ask_result env q (resolve_filter q ffArg) = .error e) :
    ask_question env q ffArg
        = { answer := "Error processing question: " ++ e,
            sources := [],
            question := q,
            template_used := "error",
            file_filter := resolve_filter q ffArg }
    ∧ (ask_question env q ffArg).answer ≠ "" := by
  have hq : ask_question env q ffArg
      = { answer := "Error processing question: " ++ e,
          sources := [],
          question := q,
          template_used := "error",
          file_filter := resolve_filter q ffArg } := by
    simp only [ask_question, h]
  refine ⟨hq, ?_⟩
  rw [hq]
  obtain ⟨l⟩ := e
  intro hcontra
  have h2 : ("Error processing question: ").data ++ l = [] :=
    congrArg String.data hcontra
  rcases List.append_eq_nil.mp h2 with ⟨h3, h4⟩
  exact absurd h3 (by decide)

/-- Witness for C4: a concrete environment whose retriever fails yields the
degraded outcome. -/
theorem ask_question_failure_degrades_witness :
    ask_question envFail ("hi there") none
        = { answer := "Error processing question: boom",
            sources := [],
            question := "hi there",
            template_used := "error",
            file_filter := none }
    ∧ (ask_question envFail ("hi there") none).answer ≠ "" := by
  have h := ask_question_failure_degrades envFail ("hi there") none ("boom") rfl
  refine ⟨?_, h.2⟩
  rw [h.1]
  decide

/-- The appending loop of `rag_engine.py` lines 122-126 computes an ordinary
filter. -/
theorem filter_loop_eq_filter (p : Doc → Bool) (l : List Doc) (acc : List Doc) :
    l.foldl (fun filtered_sources d =>
      if p d then filtered_sources ++ [d] else filtered_sources) acc
      = acc ++ l.filter p := by
  induction l generalizing acc with
  | nil => simp
  | cons a l ih =>
    cases hpa : p a <;>
      simp [List.filter_cons, hpa, ih, List.append_assoc]

/-- Claim C6: with a (truthy) scope set, the reported sources are the
retrieved chunks whose source file contains the scope as a case-insensitive
substring; a zero-match filter falls back to the full retrieval set, so a
non-empty retrieval never yields an empty source list solely due to
filtering. -/
theorem scope_filter_fallback (s : String) (docs : List Doc) (hs : s ≠ "") :
    (apply_file_filter (some s) docs
        = if (docs.filter (scope_matches s)).isEmpty then docs
          else docs.filter (scope_matches s))
    ∧ (docs ≠ [] → apply_file_filter (some s) docs ≠ [])
    ∧ (∀ q : String,
        (ask_question { retrieve := fun _ => .ok docs, generate := fun p => .ok p }
            q (some s)).sources
          = (apply_file_filter (some s) docs).map format_source) := by
  have hsfalse : s.isEmpty = false := by
    rw [Bool.eq_false_iff]
    intro hemp
    exact hs ((String.isEmpty_iff s).mp hemp)
  have htruthy : otruthy (some s) = true := by
    simp [otruthy, hsfalse]
  have hloop : filter_loop s docs = docs.filter (scope_matches s) := by
    simpa using filter_loop_eq_filter (scope_matches s) docs []
  have happ : apply_file_filter (some s) docs
      = if (docs.filter (scope_matches s)).isEmpty then docs
        else docs.filter (scope_matches s) := by
    simp only [apply_file_filter, htruthy, if_pos, Option.getD_some, hloop]
    cases hemp : (docs.filter (scope_matches s)).isEmpty <;> simp [hemp]
  refine ⟨happ, ?_, ?_⟩
  · intro hdocs
    rw [happ]
    cases hemp : (docs.filter (scope_matches s)).isEmpty with
    | true => simpa [hemp] using hdocs
    | false =>
      simp only [hemp, if_neg Bool.false_ne_true]
      intro hnil
      rw [hnil] at hemp
      simp at hemp
  · intro q
    simp only [ask_question, ask_result, resolve_filter, htruthy, if_pos]

/-- Witness for C6: the scope `resume` matches neither source in `[d2]`, so
the fallback keeps the full retrieval set non-empty. -/
theorem scope_filter_fallback_witness :
    apply_file_filter (some ("resume")) [d2] ≠ []
    ∧ apply_file_filter (some ("resume")) [d1, d2] ≠ [] := by
  have h2 := scope_filter_fallback ("resume") [d2] (by decide)
  have h12 := scope_filter_fallback ("resume") [d1, d2] (by decide)
  exact ⟨h2.2.1 (by simp), h12.2.1 (by simp)⟩

/-- A build environment whose two attempts both succeed. -/
def envBuildOk : BuildEnv :=
  { attempt1 := .ok (), attempt2 := .ok (), time1 := 11, time2 := 22 }

/-- A build environment whose two attempts both fail. -/
def envBuildFail : BuildEnv :=
  { attempt1 := .error ("first failure"), attempt2 := .error ("second failure"),
    time1 := 11, time2 := 22 }

/-- A disk state holding one pre-existing generation. -/
def diskC1 : DiskState := [{ name := "documents_7", count := 5 }]

/-- Claim C1 counterexample: `create_embeddings` on an empty chunk sequence
returns the none value successfully; it does not fail with any error. -/
theorem empty_rebuild_fails_cex :
    (create_embeddings envBuildOk [] diskC1).result = Except.ok none := rfl

/-- Claim C1 amended: for every empty sequence of chunks, `create_embeddings`
returns none (a successful no-index value) without raising any error. -/
theorem empty_rebuild_returns_none (env : BuildEnv) (disk : DiskState) :
    (create_embeddings env [] disk).result = Except.ok none := rfl

/-- Claim C10: calling `create_embeddings` with an empty chunk sequence
leaves the on-disk index state unchanged and performs no destructive clear:
the early return precedes the clear, so an existing generation survives. -/
theorem empty_rebuild_preserves_disk (env : BuildEnv) (disk : DiskState) :
    (create_embeddings env [] disk).disk = disk
    ∧ (create_embeddings env [] disk).trace = [] :=
  ⟨rfl, rfl⟩

/-- Claim C3: on a non-empty chunk sequence whose first build attempt fails,
the manager performs exactly one reset-and-retry cycle — the trace is
clear, first attempt, clear, second attempt under the regenerated name, and
nothing further; if the retry also fails the underlying second error
propagates, and if the retry succeeds the new generation is returned. -/
theorem rebuild_single_retry (env : BuildEnv) (documents : List Doc)
    (disk : DiskState) (e1 : String) (hne : documents ≠ [])
    (h1 : env.attempt1 = .error e1) :
    ((create_embeddings env documents disk).trace
        = [.clearDb, .buildAttempt (gen_name env.time1),
           .clearDb, .buildAttempt (gen_name env.time2)])
    ∧ (∀ e2, env.attempt2 = .error e2 →
        (create_embeddings env documents disk).result = .error e2)
    ∧ (∀ u : Unit, env.attempt2 = .ok u →
        (create_embeddings env documents disk).result
          = .ok (some { collection_name := gen_name env.time2 })) := by
  have hde : documents.isEmpty = false := by
    cases documents with
    | nil => exact absurd rfl hne
    | cons a l => rfl
  refine ⟨?_, ?_, ?_⟩
  · simp only [create_embeddings, hde, h1]
    cases h2 : env.attempt2 <;> simp
  · intro e2 h2
    simp [create_embeddings, hde, h1, h2]
  · intro u h2
    simp [create_embeddings, hde, h1, h2]

/-- Witness for C3 at a concrete doubly-failing environment. -/
theorem rebuild_single_retry_witness :
    ((create_embeddings envBuildFail [d1] []).trace
        = [.clearDb, .buildAttempt ("documents_11"),
           .clearDb, .buildAttempt ("documents_22")])
    ∧ (create_embeddings envBuildFail [d1] []).result
        = .error ("second failure") := by
  have h := rebuild_single_retry envBuildFail [d1] [] ("first failure")
    (by simp) rfl
  exact ⟨h.1, h.2.1 ("second failure") rfl⟩

/-- A load environment whose sole collection is empty (count zero). -/
def envLoadZero : LoadEnv :=
  { collections := .ok ["gen0"], countOf := fun _ => .ok 0 }

/-- A load environment whose enumeration fails. -/
def envLoadErr : LoadEnv :=
  { collections := .error ("store down"), countOf := fun _ => .ok 3 }

/-- A load environment with no collections. -/
def envLoadEmpty : LoadEnv :=
  { collections := .ok [], countOf := fun _ => .ok 3 }

/-- A load environment whose count query fails. -/
def envLoadCountErr : LoadEnv :=
  { collections := .ok ["g"], countOf := fun _ => .error ("count failed") }

/-- A load environment with two healthy collections. -/
def envLoadOk : LoadEnv :=
  { collections := .ok ["g1", "g0"], countOf := fun _ => .ok 4 }

/-- Claim C5 counterexample: the first enumerated collection has item count
zero, yet `load_existing_vectorstore` still returns its handle — the count is
read but never verified to be non-zero. -/
theorem load_active_zero_count_cex :
    load_existing_vectorstore envLoadZero = some { collection_name := "gen0" }
    ∧ envLoadZero.countOf ("gen0") = .ok 0 :=
  ⟨rfl, rfl⟩

/-- Claim C5 amended: `load_existing_vectorstore` never raises — it returns
none when enumeration fails, when no collections exist, or when the count
query fails; whenever it returns a handle, that handle is the first
enumerated collection and its item count was queried successfully, but a
zero count does not prevent the handle from being returned. -/
theorem load_active_behaviour (env : LoadEnv) :
    ((∀ e, env.collections = .error e → load_existing_vectorstore env = none))
    ∧ (env.collections = .ok [] → load_existing_vectorstore env = none)
    ∧ (∀ name rest e, env.collections = .ok (name :: rest) →
        env.countOf name = .error e → load_existing_vectorstore env = none)
    ∧ (∀ h, load_existing_vectorstore env = some h →
        ∃ rest n, env.collections = .ok (h.collection_name :: rest)
          ∧ env.countOf h.collection_name = .ok n) := by
  refine ⟨?_, ?_, ?_, ?_⟩
  · intro e he
    simp [load_existing_vectorstore, he]
  · intro he
    simp [load_existing_vectorstore, he]
  · intro name rest e hc hcount
    simp [load_existing_vectorstore, hc, hcount]
  · intro h hsome
    obtain ⟨hname⟩ := h
    unfold load_existing_vectorstore at hsome
    cases hcols : env.collections with
    | error e => simp [hcols] at hsome
    | ok cols =>
      cases cols with
      | nil => simp [hcols] at hsome
      | cons name rest =>
        simp only [hcols] at hsome
        cases hcount : env.countOf name with
        | error e => simp [hcount] at hsome
        | ok n =>
          simp only [hcount, Option.some.injEq, Vectorstore.mk.injEq] at hsome
          subst hsome
          exact ⟨rest, n, rfl, hcount⟩

/-- Witness for C5 at concrete environments covering each branch. -/
theorem load_active_behaviour_witness :
    load_existing_vectorstore envLoadErr = none
    ∧ load_existing_vectorstore envLoadEmpty = none
    ∧ load_existing_vectorstore envLoadCountErr = none
    ∧ (∃ rest n, envLoadOk.collections = .ok (("g1") :: rest)
        ∧ envLoadOk.countOf ("g1") = .ok n) := by
  refine ⟨(load_active_behaviour envLoadErr).1 ("store down") rfl,
    (load_active_behaviour envLoadEmpty).2.1 rfl,
    (load_active_behaviour envLoadCountErr).2.2.1 ("g") [] ("count failed") rfl rfl,
    ?_⟩
  have h := (load_active_behaviour envLoadOk).2.2.2 { collection_name := "g1" } rfl
  exact h

/-- Every start list begins with its starting offset. -/
theorem slide_starts_fuel_head (f n s : Nat) :
    (slide_starts_fuel f n s)[0]? = some s := by
  cases f with
  | zero => rfl
  | succ f =>
    simp only [slide_starts_fuel]
    split <;> exact List.getElem?_cons_zero

/-- Consecutive start offsets differ by exactly the stride
`CHUNK_SIZE - CHUNK_OVERLAP`, and every non-final start leaves more than a
full window of text ahead. -/
theorem slide_starts_fuel_succ (f : Nat) : ∀ (n s i u v : Nat),
    (slide_starts_fuel f n s)[i]? = some u →
    (slide_starts_fuel f n s)[i + 1]? = some v →
    v = u + (CHUNK_SIZE - CHUNK_OVERLAP) ∧ u + CHUNK_SIZE < n := by
  induction f with
  | zero =>
    intro n s i u v h1 h2
    simp only [slide_starts_fuel, List.getElem?_cons_succ, List.getElem?_nil] at h2
    exact Option.noConfusion h2
  | succ f ih =>
    intro n s i u v h1 h2
    simp only [slide_starts_fuel] at h1 h2
    by_cases hg : s + CHUNK_SIZE < n
    · rw [if_pos hg] at h1 h2
      cases i with
      | zero =>
        rw [List.getElem?_cons_zero] at h1
        injection h1 with h1
        rw [List.getElem?_cons_succ, slide_starts_fuel_head] at h2
        injection h2 with h2
        subst h1
        subst h2
        exact ⟨rfl, hg⟩
      | succ i =>
        rw [List.getElem?_cons_succ] at h1 h2
        exact ih n (s + (CHUNK_SIZE - CHUNK_OVERLAP)) i u v h1 h2
    · rw [if_neg hg] at h1 h2
      simp only [List.getElem?_cons_succ, List.getElem?_nil] at h2
      exact Option.noConfusion h2

/-- Claim C9: the chunker is configured with maximum chunk size 1000,
overlap 200 and start-offset tracking; under the spec-modelled sliding
window, no produced chunk exceeds `CHUNK_SIZE` characters, each chunk's text
sits at its recorded start offset, and each chunk after the first starts
exactly `CHUNK_SIZE - CHUNK_OVERLAP` after its predecessor, whose tail of
`CHUNK_OVERLAP` characters reappears as the successor's head. -/
theorem chunker_config_and_overlap :
    (document_processor_splitter
        = { chunk_size := 1000, chunk_overlap := 200, add_start_index := true })
    ∧ (∀ (text : List Char), ∀ c ∈ split_text_spec text,
        c.text.length ≤ CHUNK_SIZE
        ∧ c.text = (text.drop c.start_index).take CHUNK_SIZE)
    ∧ (∀ (text : List Char) (i : Nat) (ci cj : TextChunk),
        (split_text_spec text)[i]? = some ci →
        (split_text_spec text)[i + 1]? = some cj →
        cj.start_index = ci.start_index + (CHUNK_SIZE - CHUNK_OVERLAP)
        ∧ ci.text.length = CHUNK_SIZE
        ∧ ci.text.drop (CHUNK_SIZE - CHUNK_OVERLAP) = cj.text.take CHUNK_OVERLAP) := by
  refine ⟨rfl, ?_, ?_⟩
  · intro text c hc
    unfold split_text_spec at hc
    by_cases hemp : text.isEmpty
    · rw [if_pos hemp] at hc
      cases hc
    · rw [if_neg hemp] at hc
      rcases List.mem_map.mp hc with ⟨s, _, rfl⟩
      exact ⟨List.length_take_le _ _, rfl⟩
  · intro text i ci cj h1 h2
    unfold split_text_spec at h1 h2
    by_cases hemp : text.isEmpty
    · rw [if_pos hemp] at h1
      simp only [List.getElem?_nil] at h1
      exact Option.noConfusion h1
    · rw [if_neg hemp] at h1 h2
      rw [List.getElem?_map] at h1 h2
      rcases Option.map_eq_some'.mp h1 with ⟨u, hu, rfl⟩
      rcases Option.map_eq_some'.mp h2 with ⟨v, hv, rfl⟩
      rcases slide_starts_fuel_succ text.length text.length 0 i u v hu hv with ⟨hstep, hroom⟩
      subst hstep
      refine ⟨rfl, ?_, ?_⟩
      · simp only [List.length_take, List.length_drop]
        simp only [CHUNK_SIZE, CHUNK_OVERLAP] at hroom ⊢
        omega
      · simp only [List.drop_take, List.drop_drop, List.take_take]
        simp only [CHUNK_SIZE, CHUNK_OVERLAP]
        norm_num

set_option maxRecDepth 1000000 in
/-- Witness for C9 on a concrete 1200-character text: its two chunks, their
start offsets, sizes and exact 200-character overlap. -/
theorem chunker_config_and_overlap_witness :
    ((split_text_spec (List.replicate 1200 'a'))[0]?
        = some { text := List.replicate 1000 'a', start_index := 0 })
    ∧ ((split_text_spec (List.replicate 1200 'a'))[1]?
        = some { text := List.replicate 400 'a', start_index := 800 })
    ∧ ((800 : Nat) = 0 + (CHUNK_SIZE - CHUNK_OVERLAP)
        ∧ (List.replicate 1000 'a').length = CHUNK_SIZE
        ∧ (List.replicate 1000 'a').drop (CHUNK_SIZE - CHUNK_OVERLAP)
            = (List.replicate 400 'a').take CHUNK_OVERLAP)
    ∧ (List.replicate 1000 'a').length ≤ CHUNK_SIZE := by
  refine ⟨by decide, by decide, ?_, ?_⟩
  · exact chunker_config_and_overlap.2.2 (List.replicate 1200 'a') 0
      { text := List.replicate 1000 'a', start_index := 0 }
      { text := List.replicate 400 'a', start_index := 800 }
      (by decide) (by decide)
  · exact (chunker_config_and_overlap.2.1 (List.replicate 1200 'a')
      { text := List.replicate 1000 'a', start_index := 0 } (by decide)).1

end PdfChat
